import Mathlib

/-!
Shallow embedding of the Tomodachi pet state model (`src/tomodachi/pet.py`,
the canonical rich variant with `sick`, `litter_dirt` and the care-score
mortality rule).

Modelling conventions:
* Python's unbounded `int` is `Int`.
* Wall-clock instants (`datetime` values / ISO-8601 strings) are modelled as
  `Int` seconds since an arbitrary epoch; `isoformat`/`fromisoformat` round-trip
  losslessly on values the model produces, so a timestamp is just its instant.
  Each operation that reads the wall clock receives the current instant `now`
  as an explicit argument (the source reads `datetime.now` once or twice within
  the same call; both reads denote the call instant).
* Python float arithmetic (`hours_f` in `tick`, the day threshold in
  `check_alive`) is modelled as exact rational arithmetic over `ℚ`;
  `int(x)` on the non-negative quantities involved is `Int.floor`.
* Python `//` on `int` is floor division, which is `Int./` (`Int.ediv`) for the
  positive divisors used here; `int(x / 60.0)` in `tick_realtime` truncates
  toward zero, which is `Int.tdiv`.
* `dataclasses.asdict` / `dict.get` serialization is modelled by a record of
  optional fields (`PetData`), a missing key being `none`.
-/

namespace Tomodachi

/-- Source `_clamp` (pet.py line 11): clamp an integer into `[0, 100]`. -/
def _clamp (v : Int) : Int := max 0 (min 100 v)

/-- Source dataclass `Pet` (pet.py lines 15–33), with the dataclass defaults. -/
structure Pet where
  name : String := "Tomo"
  hunger : Int := 50
  happiness : Int := 50
  energy : Int := 50
  alive : Bool := true
  sick : Bool := false
  cumulative_play_seconds : Int := 0
  care_score : Int := 50
  last_cared : Option Int := none
  litter_dirt : Int := 0
  last_tick : Option Int := none
deriving DecidableEq

/-- The freshly constructed pet, `Pet()` with all defaults. -/
def initial : Pet := {}

/-- Source `Pet.update_last_cared` (lines 164–166): stamp `last_cared := now`. -/
def Pet.update_last_cared (now : Int) (p : Pet) : Pet :=
  { p with last_cared := some now }

/-- Source `Pet.compute_death_threshold_days` (lines 168–175):
`3.0 + (care_score / 100.0) * 27.0` days, as an exact rational. -/
def Pet.compute_death_threshold_days (p : Pet) : ℚ :=
  3 + ((p.care_score : ℚ) / 100) * 27

/-- Source `Pet.check_alive` (lines 177–194): no-op when dead; when `last_cared`
is unset, initialize it to `now`; otherwise kill the pet when the elapsed
seconds reach `threshold_days * 24 * 3600`. (The `fromisoformat` failure branch
is unreachable in the model, where every stored timestamp parses.) -/
def Pet.check_alive (now : Int) (p : Pet) : Pet :=
  if p.alive = false then p
  else
    match p.last_cared with
    | none => p.update_last_cared now
    | some last =>
        if ((now - last : Int) : ℚ) ≥ p.compute_death_threshold_days * 24 * 3600 then
          { p with alive := false }
        else p

/-- Source `Pet._on_cared` (lines 138–144): no-op when dead; raise `care_score`
by `amount` (clamped), stamp `last_cared := now`, then run `check_alive`. -/
def Pet._on_cared (amount : Int) (now : Int) (p : Pet) : Pet :=
  if p.alive = false then p
  else
    Pet.check_alive now
      (Pet.update_last_cared now { p with care_score := _clamp (p.care_score + amount) })

/-- Source `Pet.feed` (lines 42–48). -/
def Pet.feed (amount : Int) (now : Int) (p : Pet) : Pet :=
  if p.alive = false then p
  else
    Pet._on_cared 3 now
      { p with hunger := _clamp (p.hunger - amount),
               happiness := _clamp (p.happiness + 5) }

/-- Source `Pet.add_play_seconds` (lines 65–69). -/
def Pet.add_play_seconds (seconds : Int) (p : Pet) : Pet :=
  if p.alive = false then p
  else { p with cumulative_play_seconds := p.cumulative_play_seconds + seconds }

/-- Source `Pet.play` (lines 50–63): returns the success flag together with the
resulting state. Python `minutes // 2` is `minutes / 2` on `Int` (floor). -/
def Pet.play (minutes : Int) (now : Int) (p : Pet) : Bool × Pet :=
  if p.alive = false then (false, p)
  else
    let cost := max 1 (minutes / 2)
    if p.energy < cost then (false, p)
    else
      let p1 : Pet :=
        { p with happiness := _clamp (p.happiness + minutes / 2),
                 energy := _clamp (p.energy - cost),
                 hunger := _clamp (p.hunger + minutes / 3) }
      let p2 := Pet.add_play_seconds (minutes * 60) p1
      (true, Pet._on_cared 2 now p2)

/-- Source `Pet.sleep` (lines 71–78). -/
def Pet.sleep (hours : Int) (now : Int) (p : Pet) : Pet :=
  if p.alive = false then p
  else
    Pet._on_cared 1 now
      { p with energy := _clamp (p.energy + hours * 25),
               hunger := _clamp (p.hunger + hours * 5) }

/-- Source `Pet.clean_litter` (lines 80–86). -/
def Pet.clean_litter (now : Int) (p : Pet) : Pet :=
  if p.alive = false then p
  else
    Pet._on_cared 2 now
      { p with litter_dirt := 0, happiness := _clamp (p.happiness + 8) }

/-- Source `Pet.discipline` (lines 88–93). -/
def Pet.discipline (now : Int) (p : Pet) : Pet :=
  if p.alive = false then p
  else Pet._on_cared 2 now { p with happiness := _clamp (p.happiness - 5) }

/-- Source `Pet.give_attention` (lines 95–101). -/
def Pet.give_attention (now : Int) (p : Pet) : Pet :=
  if p.alive = false then p
  else
    Pet._on_cared 2 now
      { p with happiness := _clamp (p.happiness + 8),
               energy := _clamp (p.energy - 1) }

/-- Source `Pet.sick_care` (lines 103–111): administer medicine. -/
def Pet.sick_care (now : Int) (p : Pet) : Pet :=
  if p.alive = false then p
  else
    Pet._on_cared 4 now
      { p with sick := if p.sick then false else p.sick,
               energy := _clamp (p.energy + 15),
               happiness := _clamp (p.happiness + 5) }

/-- Source `Pet.tick` (lines 113–136): passive decay over `minutes` minutes.
The float `hours_f = max(0.016, minutes / 60.0)` is the exact rational
`max (16/1000) (minutes / 60)`; every `int(k * hours_f)` has a non-negative
argument, so Python truncation is `Int.floor`. -/
def Pet.tick (minutes : Int) (p : Pet) : Pet :=
  if p.alive = false then p
  else
    let hours_f : ℚ := max (16 / 1000 : ℚ) ((minutes : ℚ) / 60)
    let q1 : Pet := { p with hunger := _clamp (p.hunger + ⌊(5 : ℚ) * hours_f⌋) }
    let q2 : Pet := { q1 with happiness := _clamp (q1.happiness - ⌊(2 : ℚ) * hours_f⌋) }
    let q3 : Pet := { q2 with energy := _clamp (q2.energy - ⌊(5 : ℚ) * hours_f⌋) }
    let q4 : Pet := { q3 with litter_dirt := _clamp (q3.litter_dirt + ⌊(4 : ℚ) * hours_f⌋) }
    let q5 : Pet :=
      if q4.litter_dirt ≥ 80 then
        { q4 with happiness := _clamp (q4.happiness - ⌊(3 : ℚ) * hours_f⌋) }
      else if q4.litter_dirt ≥ 50 then
        { q4 with happiness := _clamp (q4.happiness - ⌊(1 : ℚ) * hours_f⌋) }
      else q4
    if q5.hunger ≥ 90 ∨ q5.energy ≤ 5 ∨ q5.litter_dirt ≥ 90 then
      { q5 with sick := true }
    else q5

/-- Source `Pet.tick_realtime` (lines 146–162): compute elapsed whole minutes
since `last_tick` (truncating toward zero, never negative), tick when positive,
and always restamp `last_tick := now`. Note the source has no alive-guard here. -/
def Pet.tick_realtime (now : Int) (p : Pet) : Pet :=
  match p.last_tick with
  | none => { p with last_tick := some now }
  | some lt =>
      let elapsed_min := max 0 (Int.tdiv (now - lt) 60)
      let p2 := if elapsed_min > 0 then Pet.tick elapsed_min p else p
      { p2 with last_tick := some now }

/-- Flat serialized record (source `to_dict` output / `from_dict` input,
lines 196–221): each key possibly absent. -/
structure PetData where
  name : Option String := none
  hunger : Option Int := none
  happiness : Option Int := none
  energy : Option Int := none
  alive : Option Bool := none
  sick : Option Bool := none
  cumulative_play_seconds : Option Int := none
  care_score : Option Int := none
  last_cared : Option (Option Int) := none
  litter_dirt : Option Int := none
  last_tick : Option (Option Int) := none
deriving DecidableEq

/-- Source `Pet.to_dict` (lines 196–201): every field, as primitives. -/
def Pet.to_dict (p : Pet) : PetData :=
  { name := some p.name
    hunger := some p.hunger
    happiness := some p.happiness
    energy := some p.energy
    alive := some p.alive
    sick := some p.sick
    cumulative_play_seconds := some p.cumulative_play_seconds
    care_score := some p.care_score
    last_cared := some p.last_cared
    litter_dirt := some p.litter_dirt
    last_tick := some p.last_tick }

/-- Source `Pet.from_dict` (lines 203–221): defaults for missing keys, then a
mortality evaluation at the deserialization instant `now`. -/
def Pet.from_dict (data : PetData) (now : Int) : Pet :=
  let pet : Pet :=
    { name := data.name.getD "Tomo"
      hunger := data.hunger.getD 50
      happiness := data.happiness.getD 50
      energy := data.energy.getD 50
      alive := data.alive.getD true
      cumulative_play_seconds := data.cumulative_play_seconds.getD 0
      care_score := data.care_score.getD 50
      last_cared := data.last_cared.getD none
      litter_dirt := data.litter_dirt.getD 0
      last_tick := data.last_tick.getD none
      sick := data.sick.getD false }
  Pet.check_alive now pet

/-- One operation of the model: the seven caring actions plus the two
time-advance operations. -/
inductive Op where
  | feed (amount : Int)
  | play (minutes : Int)
  | sleep (hours : Int)
  | clean_litter
  | discipline
  | give_attention
  | sick_care
  | tick (minutes : Int)
  | tick_realtime
deriving DecidableEq

/-- Apply one operation at wall-clock instant `now` (discarding `play`'s
success flag). -/
def applyOp (o : Op) (now : Int) (p : Pet) : Pet :=
  match o with
  | Op.feed a => Pet.feed a now p
  | Op.play m => (Pet.play m now p).2
  | Op.sleep h => Pet.sleep h now p
  | Op.clean_litter => Pet.clean_litter now p
  | Op.discipline => Pet.discipline now p
  | Op.give_attention => Pet.give_attention now p
  | Op.sick_care => Pet.sick_care now p
  | Op.tick m => Pet.tick m p
  | Op.tick_realtime => Pet.tick_realtime now p

/-- The seven caring actions (everything except the two time advances). -/
def CaringOp (o : Op) : Prop :=
  match o with
  | Op.tick _ => False
  | Op.tick_realtime => False
  | _ => True

/-- The five attributes the spec bounds to `[0, 100]`, all in range. -/
def InBounds (p : Pet) : Prop :=
  (0 ≤ p.hunger ∧ p.hunger ≤ 100) ∧
  (0 ≤ p.happiness ∧ p.happiness ≤ 100) ∧
  (0 ≤ p.energy ∧ p.energy ≤ 100) ∧
  (0 ≤ p.litter_dirt ∧ p.litter_dirt ≤ 100) ∧
  (0 ≤ p.care_score ∧ p.care_score ≤ 100)

instance (p : Pet) : Decidable (InBounds p) := by
  unfold InBounds
  infer_instance

/-- Spec-side per-field tick amount: `k` points per hour over
`max (16/1000) (minutes/60)` hours, truncated. -/
def tick_amount (k : ℚ) (minutes : Int) : Int :=
  ⌊k * max (16 / 1000 : ℚ) ((minutes : ℚ) / 60)⌋

lemma _clamp_nonneg (v : Int) : 0 ≤ _clamp v := by
  simp [_clamp]

lemma _clamp_le_100 (v : Int) : _clamp v ≤ 100 := by
  simp only [_clamp]
  omega

lemma _clamp_mono {a b : Int} (h : a ≤ b) : _clamp a ≤ _clamp b := by
  simp only [_clamp]
  omega

lemma _clamp_bounds (v : Int) : 0 ≤ _clamp v ∧ _clamp v ≤ 100 :=
  ⟨_clamp_nonneg v, _clamp_le_100 v⟩

lemma check_alive_dead {p : Pet} (h : p.alive = false) (now : Int) :
    Pet.check_alive now p = p := by
  simp [Pet.check_alive, h]

lemma threshold_pos {p : Pet} (hc : 0 ≤ p.care_score) :
    0 < p.compute_death_threshold_days * 24 * 3600 := by
  unfold Pet.compute_death_threshold_days
  have h : (0 : ℚ) ≤ (p.care_score : ℚ) := by exact_mod_cast hc
  nlinarith

lemma check_alive_fresh {p : Pet} {now : Int} (hl : p.last_cared = some now)
    (hc : 0 ≤ p.care_score) : Pet.check_alive now p = p := by
  unfold Pet.check_alive
  cases hA : p.alive with
  | false => simp
  | true =>
    have hcond : ¬ (((now - now : Int) : ℚ) ≥ p.compute_death_threshold_days * 24 * 3600) := by
      have := threshold_pos hc
      push_cast
      linarith
    simp only [hA, hl, Bool.true_eq_false, if_false]
    exact if_neg hcond

lemma _on_cared_eq {p : Pet} (h : p.alive = true) (a now : Int) :
    Pet._on_cared a now p =
      { p with care_score := _clamp (p.care_score + a), last_cared := some now } := by
  unfold Pet._on_cared Pet.update_last_cared
  simp only [h, Bool.true_eq_false, if_false]
  exact check_alive_fresh rfl (_clamp_nonneg _)

lemma feed_eq {p : Pet} (h : p.alive = true) (a now : Int) :
    Pet.feed a now p =
      { p with hunger := _clamp (p.hunger - a),
               happiness := _clamp (p.happiness + 5),
               care_score := _clamp (p.care_score + 3),
               last_cared := some now } := by
  unfold Pet.feed
  simp only [h, Bool.true_eq_false, if_false]
  exact _on_cared_eq rfl 3 now

lemma play_fail {p : Pet} {minutes : Int} (h : p.alive = true) (now : Int)
    (he : p.energy < max 1 (minutes / 2)) : Pet.play minutes now p = (false, p) := by
  unfold Pet.play
  simp only [h, Bool.true_eq_false, if_false]
  rw [if_pos he]

lemma play_succ {p : Pet} {minutes : Int} (h : p.alive = true) (now : Int)
    (he : ¬ p.energy < max 1 (minutes / 2)) :
    Pet.play minutes now p =
      (true,
        { p with happiness := _clamp (p.happiness + minutes / 2),
                 energy := _clamp (p.energy - max 1 (minutes / 2)),
                 hunger := _clamp (p.hunger + minutes / 3),
                 cumulative_play_seconds := p.cumulative_play_seconds + minutes * 60,
                 care_score := _clamp (p.care_score + 2),
                 last_cared := some now }) := by
  unfold Pet.play Pet.add_play_seconds
  simp only [h, Bool.true_eq_false, if_false]
  rw [if_neg he]
  rw [_on_cared_eq rfl 2 now]

lemma sleep_eq {p : Pet} (h : p.alive = true) (hours now : Int) :
    Pet.sleep hours now p =
      { p with energy := _clamp (p.energy + hours * 25),
               hunger := _clamp (p.hunger + hours * 5),
               care_score := _clamp (p.care_score + 1),
               last_cared := some now } := by
  unfold Pet.sleep
  simp only [h, Bool.true_eq_false, if_false]
  exact _on_cared_eq rfl 1 now

lemma clean_litter_eq {p : Pet} (h : p.alive = true) (now : Int) :
    Pet.clean_litter now p =
      { p with litter_dirt := 0,
               happiness := _clamp (p.happiness + 8),
               care_score := _clamp (p.care_score + 2),
               last_cared := some now } := by
  unfold Pet.clean_litter
  simp only [h, Bool.true_eq_false, if_false]
  exact _on_cared_eq rfl 2 now

lemma discipline_eq {p : Pet} (h : p.alive = true) (now : Int) :
    Pet.discipline now p =
      { p with happiness := _clamp (p.happiness - 5),
               care_score := _clamp (p.care_score + 2),
               last_cared := some now } := by
  unfold Pet.discipline
  simp only [h, Bool.true_eq_false, if_false]
  exact _on_cared_eq rfl 2 now

lemma give_attention_eq {p : Pet} (h : p.alive = true) (now : Int) :
    Pet.give_attention now p =
      { p with happiness := _clamp (p.happiness + 8),
               energy := _clamp (p.energy - 1),
               care_score := _clamp (p.care_score + 2),
               last_cared := some now } := by
  unfold Pet.give_attention
  simp only [h, Bool.true_eq_false, if_false]
  exact _on_cared_eq rfl 2 now

lemma sick_care_eq {p : Pet} (h : p.alive = true) (now : Int) :
    Pet.sick_care now p =
      { p with sick := false,
               energy := _clamp (p.energy + 15),
               happiness := _clamp (p.happiness + 5),
               care_score := _clamp (p.care_score + 4),
               last_cared := some now } := by
  unfold Pet.sick_care
  simp only [h, Bool.true_eq_false, if_false]
  have hs : (if p.sick then false else p.sick) = false := by
    cases p.sick <;> rfl
  rw [hs]
  exact _on_cared_eq rfl 4 now

lemma feed_dead {p : Pet} (h : p.alive = false) (a now : Int) :
    Pet.feed a now p = p := by
  simp [Pet.feed, h]

lemma play_dead {p : Pet} (h : p.alive = false) (m now : Int) :
    Pet.play m now p = (false, p) := by
  simp [Pet.play, h]

lemma sleep_dead {p : Pet} (h : p.alive = false) (hours now : Int) :
    Pet.sleep hours now p = p := by
  simp [Pet.sleep, h]

lemma clean_litter_dead {p : Pet} (h : p.alive = false) (now : Int) :
    Pet.clean_litter now p = p := by
  simp [Pet.clean_litter, h]

lemma discipline_dead {p : Pet} (h : p.alive = false) (now : Int) :
    Pet.discipline now p = p := by
  simp [Pet.discipline, h]

lemma give_attention_dead {p : Pet} (h : p.alive = false) (now : Int) :
    Pet.give_attention now p = p := by
  simp [Pet.give_attention, h]

lemma sick_care_dead {p : Pet} (h : p.alive = false) (now : Int) :
    Pet.sick_care now p = p := by
  simp [Pet.sick_care, h]

lemma tick_dead {p : Pet} (h : p.alive = false) (m : Int) :
    Pet.tick m p = p := by
  simp [Pet.tick, h]

lemma tick_eq {p : Pet} (h : p.alive = true) (m : Int) :
    Pet.tick m p =
      { p with
          hunger := _clamp (p.hunger + tick_amount 5 m),
          happiness :=
            (if _clamp (p.litter_dirt + tick_amount 4 m) ≥ 80 then
              _clamp (_clamp (p.happiness - tick_amount 2 m) - tick_amount 3 m)
            else if _clamp (p.litter_dirt + tick_amount 4 m) ≥ 50 then
              _clamp (_clamp (p.happiness - tick_amount 2 m) - tick_amount 1 m)
            else _clamp (p.happiness - tick_amount 2 m)),
          energy := _clamp (p.energy - tick_amount 5 m),
          litter_dirt := _clamp (p.litter_dirt + tick_amount 4 m),
          sick :=
            (if _clamp (p.hunger + tick_amount 5 m) ≥ 90 ∨
                _clamp (p.energy - tick_amount 5 m) ≤ 5 ∨
                _clamp (p.litter_dirt + tick_amount 4 m) ≥ 90 then
              true
            else p.sick) } := by
  unfold Pet.tick
  simp [h, tick_amount]
  split_ifs <;> simp_all

lemma tick_realtime_none {p : Pet} (h : p.last_tick = none) (now : Int) :
    Pet.tick_realtime now p = { p with last_tick := some now } := by
  unfold Pet.tick_realtime
  rw [h]

lemma tick_realtime_some {p : Pet} {lt : Int} (h : p.last_tick = some lt) (now : Int) :
    Pet.tick_realtime now p =
      { (if 0 < max 0 (Int.tdiv (now - lt) 60) then
           Pet.tick (max 0 (Int.tdiv (now - lt) 60)) p
         else p) with last_tick := some now } := by
  unfold Pet.tick_realtime
  rw [h]

lemma tick_realtime_dead {p : Pet} (h : p.alive = false) (now : Int) :
    Pet.tick_realtime now p = { p with last_tick := some now } := by
  cases hl : p.last_tick with
  | none => exact tick_realtime_none hl now
  | some lt =>
    rw [tick_realtime_some hl now]
    split_ifs with hm
    · rw [tick_dead h]
    · rfl

/-- C1 counterexample: the claim that a dead pet's state is identical before and
after any operation is false at a concrete input — `tick_realtime` restamps
`last_tick` even on a dead pet. -/
theorem dead_tick_realtime_mutates :
    Pet.tick_realtime 5 { initial with alive := false } ≠
      { initial with alive := false } := by
  decide

/-- C1 (amended): a dead pet is left completely unchanged by every operation
except `tick_realtime`, which changes nothing but `last_tick` (restamped to
`now`). -/
theorem dead_pet_frame (o : Op) (now : Int) (p : Pet) (h : p.alive = false) :
    applyOp o now p =
      if o = Op.tick_realtime then { p with last_tick := some now } else p := by
  cases o with
  | feed a =>
    rw [if_neg (by simp)]
    exact feed_dead h a now
  | play m =>
    rw [if_neg (by simp)]
    show (Pet.play m now p).2 = p
    rw [play_dead h]
  | sleep hrs =>
    rw [if_neg (by simp)]
    exact sleep_dead h hrs now
  | clean_litter =>
    rw [if_neg (by simp)]
    exact clean_litter_dead h now
  | discipline =>
    rw [if_neg (by simp)]
    exact discipline_dead h now
  | give_attention =>
    rw [if_neg (by simp)]
    exact give_attention_dead h now
  | sick_care =>
    rw [if_neg (by simp)]
    exact sick_care_dead h now
  | tick m =>
    rw [if_neg (by simp)]
    exact tick_dead h m
  | tick_realtime =>
    rw [if_pos rfl]
    exact tick_realtime_dead h now

/-- C1 witness: the amended frame property applied to a concrete dead pet and a
concrete action. -/
theorem dead_pet_frame_witness :
    applyOp (Op.feed 20) 0 { initial with alive := false } =
      if Op.feed 20 = Op.tick_realtime then
        { ({ initial with alive := false } : Pet) with last_tick := some 0 }
      else { initial with alive := false } :=
  dead_pet_frame (Op.feed 20) 0 { initial with alive := false } rfl

/-- C2 counterexample: a living pet with `care_score = 0` that was last cared
for 3 days + 1 second ago is NOT killed by the next caring action — the action
resets `last_cared` before the mortality evaluation runs. -/
theorem caring_action_ignores_neglect :
    (Pet.feed 20 259201
        { initial with care_score := 0, last_cared := some 0 }).alive = true := by
  rw [feed_eq (show ({ initial with care_score := 0, last_cared := some 0 } : Pet).alive
        = true from rfl)]
  rfl

/-- C2 (amended): for a living pet with `care_score = 0` and `last_cared = t`,
a direct mortality evaluation (`check_alive`, as run for instance by
`deserialize`) leaves `alive = false` exactly when at least 3 days
(259200 seconds) have elapsed since `t`; in particular it stays alive below the
threshold. A caring action, by contrast, never kills (it resets the neglect
clock first). -/
theorem mortality_eval_iff_neglect (p : Pet) (t now : Int) (h : p.alive = true)
    (hc : p.care_score = 0) (hl : p.last_cared = some t) :
    (Pet.check_alive now p).alive = false ↔ 259200 ≤ now - t := by
  have hthr : p.compute_death_threshold_days * 24 * 3600 = 259200 := by
    unfold Pet.compute_death_threshold_days
    rw [hc]
    norm_num
  unfold Pet.check_alive
  simp only [h, hl, Bool.true_eq_false, if_false]
  rw [hthr]
  by_cases hge : ((now - t : Int) : ℚ) ≥ 259200
  · rw [if_pos hge]
    exact iff_of_true rfl (by exact_mod_cast hge)
  · rw [if_neg hge]
    exact iff_of_false (by simp [h]) (fun hcon => hge (by exact_mod_cast hcon))

/-- C2 witness: the amended mortality rule applied at 3 days + 1 second of
neglect. -/
theorem mortality_eval_iff_neglect_witness :
    (Pet.check_alive 259201
        { initial with care_score := 0, last_cared := some 0 }).alive = false ↔
      259200 ≤ (259201 : Int) - 0 :=
  mortality_eval_iff_neglect { initial with care_score := 0, last_cared := some 0 }
    0 259201 rfl rfl rfl

/-- C3: on a living pet, `play(minutes)` computes `cost = max 1 (minutes // 2)`;
with `energy < cost` it returns false and changes nothing (atomic failure);
otherwise it returns true and applies exactly the documented deltas (clamped),
adds `minutes * 60` play seconds, and records a caring event worth 2 points. -/
theorem play_spec (p : Pet) (minutes now : Int) (h : p.alive = true) :
    Pet.play minutes now p =
      if p.energy < max 1 (minutes / 2) then (false, p)
      else
        (true,
          { p with happiness := _clamp (p.happiness + minutes / 2),
                   energy := _clamp (p.energy - max 1 (minutes / 2)),
                   hunger := _clamp (p.hunger + minutes / 3),
                   cumulative_play_seconds := p.cumulative_play_seconds + minutes * 60,
                   care_score := _clamp (p.care_score + 2),
                   last_cared := some now }) := by
  by_cases he : p.energy < max 1 (minutes / 2)
  · rw [if_pos he]
    exact play_fail h now he
  · rw [if_neg he]
    exact play_succ h now he

/-- C3 witness: the play contract applied to the default pet for 10 minutes. -/
theorem play_spec_witness :
    Pet.play 10 0 initial =
      if initial.energy < max 1 (10 / 2) then (false, initial)
      else
        (true,
          { initial with happiness := _clamp (initial.happiness + 10 / 2),
                         energy := _clamp (initial.energy - max 1 (10 / 2)),
                         hunger := _clamp (initial.hunger + 10 / 3),
                         cumulative_play_seconds := initial.cumulative_play_seconds + 10 * 60,
                         care_score := _clamp (initial.care_score + 2),
                         last_cared := some 0 }) :=
  play_spec initial 10 0 rfl

/-- C8: on a living pet, `tick(minutes)` applies exactly the documented decay
over `hours = max (16/1000) (minutes/60)` hours — hunger `+5/h`, happiness
`-2/h`, energy `-5/h`, litter `+4/h`, each truncated then clamped, then the
litter-based happiness penalty (`-3/h` at dirt ≥ 80, `-1/h` at dirt ≥ 50,
checked on the updated dirt), then sickness when hunger ≥ 90, energy ≤ 5 or
dirt ≥ 90 — and leaves `care_score` and `last_cared` (and every other field)
unchanged. -/
theorem tick_spec (p : Pet) (m : Int) (h : p.alive = true) :
    Pet.tick m p =
      { p with
          hunger := _clamp (p.hunger + tick_amount 5 m),
          happiness :=
            (if _clamp (p.litter_dirt + tick_amount 4 m) ≥ 80 then
              _clamp (_clamp (p.happiness - tick_amount 2 m) - tick_amount 3 m)
            else if _clamp (p.litter_dirt + tick_amount 4 m) ≥ 50 then
              _clamp (_clamp (p.happiness - tick_amount 2 m) - tick_amount 1 m)
            else _clamp (p.happiness - tick_amount 2 m)),
          energy := _clamp (p.energy - tick_amount 5 m),
          litter_dirt := _clamp (p.litter_dirt + tick_amount 4 m),
          sick :=
            (if _clamp (p.hunger + tick_amount 5 m) ≥ 90 ∨
                _clamp (p.energy - tick_amount 5 m) ≤ 5 ∨
                _clamp (p.litter_dirt + tick_amount 4 m) ≥ 90 then
              true
            else p.sick) } :=
  tick_eq h m

/-- C8 witness: the tick contract applied to the default pet for two hours. -/
theorem tick_spec_witness :
    Pet.tick 120 initial =
      { initial with
          hunger := _clamp (initial.hunger + tick_amount 5 120),
          happiness :=
            (if _clamp (initial.litter_dirt + tick_amount 4 120) ≥ 80 then
              _clamp (_clamp (initial.happiness - tick_amount 2 120) - tick_amount 3 120)
            else if _clamp (initial.litter_dirt + tick_amount 4 120) ≥ 50 then
              _clamp (_clamp (initial.happiness - tick_amount 2 120) - tick_amount 1 120)
            else _clamp (initial.happiness - tick_amount 2 120)),
          energy := _clamp (initial.energy - tick_amount 5 120),
          litter_dirt := _clamp (initial.litter_dirt + tick_amount 4 120),
          sick :=
            (if _clamp (initial.hunger + tick_amount 5 120) ≥ 90 ∨
                _clamp (initial.energy - tick_amount 5 120) ≤ 5 ∨
                _clamp (initial.litter_dirt + tick_amount 4 120) ≥ 90 then
              true
            else initial.sick) } :=
  tick_spec initial 120 rfl

/-- C9: sleep's effect is monotone in its hours argument — from the same living
state, more hours of sleep give at least as much energy and at least as much
hunger. -/
theorem sleep_monotone (p : Pet) (h1 h2 now : Int) (ha : p.alive = true)
    (hle : h1 ≤ h2) :
    (Pet.sleep h1 now p).energy ≤ (Pet.sleep h2 now p).energy ∧
    (Pet.sleep h1 now p).hunger ≤ (Pet.sleep h2 now p).hunger := by
  rw [sleep_eq ha h1 now, sleep_eq ha h2 now]
  refine ⟨_clamp_mono ?_, _clamp_mono ?_⟩ <;> omega

/-- C9 witness: sleep monotonicity at 1 versus 2 hours on the default pet. -/
theorem sleep_monotone_witness :
    (Pet.sleep 1 0 initial).energy ≤ (Pet.sleep 2 0 initial).energy ∧
    (Pet.sleep 1 0 initial).hunger ≤ (Pet.sleep 2 0 initial).hunger :=
  sleep_monotone initial 1 2 0 rfl (by decide)

/-- C10: a caring action can never kill: any of the seven caring actions on a
living pet leaves it alive, because the action resets `last_cared` to `now`
before the mortality evaluation and the death threshold is at least 3 days. -/
theorem caring_never_kills (o : Op) (now : Int) (p : Pet) (hc : CaringOp o)
    (h : p.alive = true) : (applyOp o now p).alive = true := by
  cases o with
  | feed a =>
    show (Pet.feed a now p).alive = true
    rw [feed_eq h]
    exact h
  | play m =>
    show (Pet.play m now p).2.alive = true
    by_cases he : p.energy < max 1 (m / 2)
    · rw [play_fail h now he]
      exact h
    · rw [play_succ h now he]
      exact h
  | sleep hrs =>
    show (Pet.sleep hrs now p).alive = true
    rw [sleep_eq h]
    exact h
  | clean_litter =>
    show (Pet.clean_litter now p).alive = true
    rw [clean_litter_eq h]
    exact h
  | discipline =>
    show (Pet.discipline now p).alive = true
    rw [discipline_eq h]
    exact h
  | give_attention =>
    show (Pet.give_attention now p).alive = true
    rw [give_attention_eq h]
    exact h
  | sick_care =>
    show (Pet.sick_care now p).alive = true
    rw [sick_care_eq h]
    exact h
  | tick m => exact hc.elim
  | tick_realtime => exact hc.elim

/-- C10 witness: feeding a 3-days-neglected zero-care pet still leaves it
alive. -/
theorem caring_never_kills_witness :
    (applyOp (Op.feed 20) 259201
        { initial with care_score := 0, last_cared := some 0 }).alive = true :=
  caring_never_kills (Op.feed 20) 259201
    { initial with care_score := 0, last_cared := some 0 } trivial rfl

lemma from_dict_to_dict (p : Pet) (now : Int) :
    Pet.from_dict (Pet.to_dict p) now = Pet.check_alive now p := by
  unfold Pet.from_dict Pet.to_dict
  simp only [Option.getD_some]

lemma check_alive_due {p : Pet} {t : Int} (h : p.alive = true)
    (hl : p.last_cared = some t) (now : Int)
    (hq : ((now - t : Int) : ℚ) ≥ p.compute_death_threshold_days * 24 * 3600) :
    Pet.check_alive now p = { p with alive := false } := by
  unfold Pet.check_alive
  simp only [h, hl, Bool.true_eq_false, if_false]
  exact if_pos hq

/-- C4 counterexample: the round-trip is not bit-for-bit for every pet produced
by a sequence of operations, in two distinct ways. After one `tick_realtime`
the pet still has `last_cared = none`, and `deserialize` stamps it to the
deserialization instant. And a pet fed once at t = 0 (alive, `last_cared` set,
care_score 53, neglect window 1495584 s ≈ 17.31 days) deserialized at
t = 2000000 s ≈ 23 days comes back with `alive = false`: the load-time
mortality evaluation rewrites `alive` even though serialization preserved it. -/
theorem roundtrip_not_bit_for_bit :
    Pet.from_dict (Pet.to_dict (Pet.tick_realtime 0 initial)) 5 ≠
        Pet.tick_realtime 0 initial ∧
    Pet.from_dict (Pet.to_dict (Pet.feed 20 0 initial)) 2000000 ≠
        Pet.feed 20 0 initial := by
  constructor
  · decide
  · rw [feed_eq (show initial.alive = true from rfl) 20 0]
    rw [from_dict_to_dict]
    rw [check_alive_due rfl rfl 2000000 ?hq]
    · intro hcontra
      have halive := congrArg Pet.alive hcontra
      exact Bool.noConfusion halive
    case hq =>
      show ((2000000 - (0 : Int) : Int) : ℚ) ≥
        (3 + ((_clamp (initial.care_score + 3) : Int) : ℚ) / 100 * 27) * 24 * 3600
      have hcs : _clamp (initial.care_score + 3) = 53 := by decide
      rw [hcs]
      norm_num

/-- C4 (amended): `deserialize(serialize(pet))` at instant `now` reproduces
every field of `pet` provided `last_cared` is set (as it is after any caring
action) and, if the pet is alive, `now` still lies within the pet's neglect
window. Both provisos are necessary: when `last_cared` is unset the load stamps
it to `now`, and when the window has already elapsed the load-time mortality
evaluation flips `alive` to false (the stale-save resurrection-as-dead the spec
describes), even at the instant of serialization. -/
theorem roundtrip_exact (p : Pet) (t now : Int) (hl : p.last_cared = some t)
    (hlive : p.alive = true →
      ((now - t : Int) : ℚ) < p.compute_death_threshold_days * 24 * 3600) :
    Pet.from_dict (Pet.to_dict p) now = p := by
  unfold Pet.from_dict Pet.to_dict
  simp only [Option.getD_some]
  show Pet.check_alive now p = p
  cases hA : p.alive with
  | false => exact check_alive_dead hA now
  | true =>
    unfold Pet.check_alive
    simp only [hA, hl, Bool.true_eq_false, if_false]
    exact if_neg (not_le.mpr (hlive hA))

/-- C4 witness: the amended round-trip applied to a cared-for pet, serialized
and deserialized at the same instant. -/
theorem roundtrip_exact_witness :
    Pet.from_dict (Pet.to_dict { initial with last_cared := some 0 }) 0 =
      { initial with last_cared := some 0 } :=
  roundtrip_exact { initial with last_cared := some 0 } 0 0 rfl
    (fun _ => by norm_num [Pet.compute_death_threshold_days, initial])

lemma tick_inbounds {p : Pet} (h : InBounds p) (m : Int) :
    InBounds (Pet.tick m p) := by
  cases hA : p.alive with
  | false =>
    rw [tick_dead hA]
    exact h
  | true =>
    rw [tick_eq hA]
    refine ⟨_clamp_bounds _, ⟨?_, ?_⟩, _clamp_bounds _, _clamp_bounds _, h.2.2.2.2⟩
    · split_ifs <;> exact _clamp_nonneg _
    · split_ifs <;> exact _clamp_le_100 _

/-- C5: every operation of the model keeps the five bounded attributes
(hunger, happiness, energy, litter_dirt, care_score) inside `[0, 100]`,
provided they were inside before. -/
theorem bounded_attrs_invariant (o : Op) (now : Int) (p : Pet)
    (h : InBounds p) : InBounds (applyOp o now p) := by
  cases hA : p.alive with
  | false =>
    cases o <;>
      simp only [applyOp, feed_dead hA, play_dead hA, sleep_dead hA,
        clean_litter_dead hA, discipline_dead hA, give_attention_dead hA,
        sick_care_dead hA, tick_dead hA, tick_realtime_dead hA] <;>
      exact h
  | true =>
    cases o with
    | feed a =>
      show InBounds (Pet.feed a now p)
      rw [feed_eq hA]
      exact ⟨_clamp_bounds _, _clamp_bounds _, h.2.2.1, h.2.2.2.1, _clamp_bounds _⟩
    | play m =>
      show InBounds (Pet.play m now p).2
      by_cases he : p.energy < max 1 (m / 2)
      · rw [play_fail hA now he]
        exact h
      · rw [play_succ hA now he]
        exact ⟨_clamp_bounds _, _clamp_bounds _, _clamp_bounds _, h.2.2.2.1,
          _clamp_bounds _⟩
    | sleep hrs =>
      show InBounds (Pet.sleep hrs now p)
      rw [sleep_eq hA]
      exact ⟨_clamp_bounds _, h.2.1, _clamp_bounds _, h.2.2.2.1, _clamp_bounds _⟩
    | clean_litter =>
      show InBounds (Pet.clean_litter now p)
      rw [clean_litter_eq hA]
      exact ⟨h.1, _clamp_bounds _, h.2.2.1,
        (show (0 : Int) ≤ 0 ∧ (0 : Int) ≤ 100 by omega), _clamp_bounds _⟩
    | discipline =>
      show InBounds (Pet.discipline now p)
      rw [discipline_eq hA]
      exact ⟨h.1, _clamp_bounds _, h.2.2.1, h.2.2.2.1, _clamp_bounds _⟩
    | give_attention =>
      show InBounds (Pet.give_attention now p)
      rw [give_attention_eq hA]
      exact ⟨h.1, _clamp_bounds _, _clamp_bounds _, h.2.2.2.1, _clamp_bounds _⟩
    | sick_care =>
      show InBounds (Pet.sick_care now p)
      rw [sick_care_eq hA]
      exact ⟨h.1, _clamp_bounds _, _clamp_bounds _, h.2.2.2.1, _clamp_bounds _⟩
    | tick m => exact tick_inbounds h m
    | tick_realtime =>
      show InBounds (Pet.tick_realtime now p)
      cases hl : p.last_tick with
      | none =>
        rw [tick_realtime_none hl]
        exact h
      | some lt =>
        rw [tick_realtime_some hl now]
        split_ifs with hm
        · exact tick_inbounds h _
        · exact h

/-- C5 witness: the clamp invariant applied to the default pet across a long
tick. -/
theorem bounded_attrs_invariant_witness :
    InBounds initial ∧ InBounds (applyOp (Op.tick 2000) 0 initial) :=
  ⟨by decide, bounded_attrs_invariant (Op.tick 2000) 0 initial (by decide)⟩

/-- C6 counterexample: `cumulative_play_seconds` is not monotone over every
operation — playing a negative duration (accepted by the core) decreases it. -/
theorem negative_play_decreases_play_seconds :
    (Pet.play (-10) 0 initial).2.cumulative_play_seconds <
      initial.cumulative_play_seconds := by
  rw [play_succ (show initial.alive = true from rfl) 0 (by decide)]
  decide

/-- C6 (amended): `cumulative_play_seconds` never decreases under any operation
whose duration argument is non-negative: only `play` changes it, adding
`minutes * 60` on success. For negative `minutes` (accepted by the core) it can
decrease. -/
theorem play_seconds_monotone (o : Op) (now : Int) (p : Pet)
    (h : ∀ m, o = Op.play m → 0 ≤ m) :
    p.cumulative_play_seconds ≤ (applyOp o now p).cumulative_play_seconds := by
  cases hA : p.alive with
  | false =>
    cases o <;>
      simp only [applyOp, feed_dead hA, play_dead hA, sleep_dead hA,
        clean_litter_dead hA, discipline_dead hA, give_attention_dead hA,
        sick_care_dead hA, tick_dead hA, tick_realtime_dead hA] <;>
      exact le_refl _
  | true =>
    cases o with
    | feed a =>
      show p.cumulative_play_seconds ≤ (Pet.feed a now p).cumulative_play_seconds
      rw [feed_eq hA]
    | play m =>
      have hm : 0 ≤ m := h m rfl
      show p.cumulative_play_seconds ≤ (Pet.play m now p).2.cumulative_play_seconds
      by_cases he : p.energy < max 1 (m / 2)
      · rw [play_fail hA now he]
      · rw [play_succ hA now he]
        show p.cumulative_play_seconds ≤ p.cumulative_play_seconds + m * 60
        omega
    | sleep hrs =>
      show p.cumulative_play_seconds ≤ (Pet.sleep hrs now p).cumulative_play_seconds
      rw [sleep_eq hA]
    | clean_litter =>
      show p.cumulative_play_seconds ≤ (Pet.clean_litter now p).cumulative_play_seconds
      rw [clean_litter_eq hA]
    | discipline =>
      show p.cumulative_play_seconds ≤ (Pet.discipline now p).cumulative_play_seconds
      rw [discipline_eq hA]
    | give_attention =>
      show p.cumulative_play_seconds ≤ (Pet.give_attention now p).cumulative_play_seconds
      rw [give_attention_eq hA]
    | sick_care =>
      show p.cumulative_play_seconds ≤ (Pet.sick_care now p).cumulative_play_seconds
      rw [sick_care_eq hA]
    | tick m =>
      show p.cumulative_play_seconds ≤ (Pet.tick m p).cumulative_play_seconds
      rw [tick_eq hA]
    | tick_realtime =>
      show p.cumulative_play_seconds ≤ (Pet.tick_realtime now p).cumulative_play_seconds
      cases hl : p.last_tick with
      | none => rw [tick_realtime_none hl]
      | some lt =>
        rw [tick_realtime_some hl now]
        split_ifs with hm
        · rw [tick_eq hA]
        · exact le_refl _

/-- C6 witness: monotonicity applied to a non-negative play duration. -/
theorem play_seconds_monotone_witness :
    initial.cumulative_play_seconds ≤
      (applyOp (Op.play 10) 0 initial).cumulative_play_seconds :=
  play_seconds_monotone (Op.play 10) 0 initial
    (fun m hm => by injection hm with h1; omega)

/-- C7: across every operation, `sick` either stays unchanged, or flips
false→true and then the operation is a time advance (`tick` or
`tick_realtime`) with the sickness condition holding on the updated
attributes, or flips true→false and then the operation is administer-medicine
(`sick_care`). -/
theorem sick_transition_characterization (o : Op) (now : Int) (p : Pet) :
    (applyOp o now p).sick = p.sick ∨
    (p.sick = false ∧ (applyOp o now p).sick = true ∧
      ((∃ m, o = Op.tick m) ∨ o = Op.tick_realtime) ∧
      ((applyOp o now p).hunger ≥ 90 ∨ (applyOp o now p).energy ≤ 5 ∨
        (applyOp o now p).litter_dirt ≥ 90)) ∨
    (p.sick = true ∧ (applyOp o now p).sick = false ∧ o = Op.sick_care) := by
  cases hA : p.alive with
  | false =>
    left
    cases o <;>
      simp only [applyOp, feed_dead hA, play_dead hA, sleep_dead hA,
        clean_litter_dead hA, discipline_dead hA, give_attention_dead hA,
        sick_care_dead hA, tick_dead hA, tick_realtime_dead hA]
  | true =>
    cases o with
    | feed a =>
      left
      show (Pet.feed a now p).sick = p.sick
      rw [feed_eq hA]
    | play m =>
      left
      show (Pet.play m now p).2.sick = p.sick
      by_cases he : p.energy < max 1 (m / 2)
      · rw [play_fail hA now he]
      · rw [play_succ hA now he]
    | sleep hrs =>
      left
      show (Pet.sleep hrs now p).sick = p.sick
      rw [sleep_eq hA]
    | clean_litter =>
      left
      show (Pet.clean_litter now p).sick = p.sick
      rw [clean_litter_eq hA]
    | discipline =>
      left
      show (Pet.discipline now p).sick = p.sick
      rw [discipline_eq hA]
    | give_attention =>
      left
      show (Pet.give_attention now p).sick = p.sick
      rw [give_attention_eq hA]
    | sick_care =>
      by_cases hs : p.sick = true
      · right; right
        refine ⟨hs, ?_, rfl⟩
        show (Pet.sick_care now p).sick = false
        rw [sick_care_eq hA]
      · have hs' : p.sick = false := by simpa using hs
        left
        show (Pet.sick_care now p).sick = p.sick
        rw [sick_care_eq hA, hs']
    | tick m =>
      have hexp : applyOp (Op.tick m) now p = Pet.tick m p := rfl
      rw [hexp, tick_eq hA]
      by_cases hcond : _clamp (p.hunger + tick_amount 5 m) ≥ 90 ∨
          _clamp (p.energy - tick_amount 5 m) ≤ 5 ∨
          _clamp (p.litter_dirt + tick_amount 4 m) ≥ 90
      · by_cases hs : p.sick = true
        · left
          show (if _clamp (p.hunger + tick_amount 5 m) ≥ 90 ∨
              _clamp (p.energy - tick_amount 5 m) ≤ 5 ∨
              _clamp (p.litter_dirt + tick_amount 4 m) ≥ 90 then true else p.sick) = p.sick
          rw [if_pos hcond, hs]
        · have hs' : p.sick = false := by simpa using hs
          right; left
          refine ⟨hs', ?_, Or.inl ⟨m, rfl⟩, ?_⟩
          · show (if _clamp (p.hunger + tick_amount 5 m) ≥ 90 ∨
                _clamp (p.energy - tick_amount 5 m) ≤ 5 ∨
                _clamp (p.litter_dirt + tick_amount 4 m) ≥ 90 then true else p.sick) = true
            rw [if_pos hcond]
          · exact hcond
      · left
        show (if _clamp (p.hunger + tick_amount 5 m) ≥ 90 ∨
            _clamp (p.energy - tick_amount 5 m) ≤ 5 ∨
            _clamp (p.litter_dirt + tick_amount 4 m) ≥ 90 then true else p.sick) = p.sick
        rw [if_neg hcond]
    | tick_realtime =>
      have hexp : applyOp Op.tick_realtime now p = Pet.tick_realtime now p := rfl
      cases hl : p.last_tick with
      | none =>
        left
        rw [hexp, tick_realtime_none hl]
      | some lt =>
        rw [hexp, tick_realtime_some hl now]
        split_ifs with hm
        · rw [tick_eq hA]
          by_cases hcond : _clamp (p.hunger + tick_amount 5 (max 0 (Int.tdiv (now - lt) 60))) ≥ 90 ∨
              _clamp (p.energy - tick_amount 5 (max 0 (Int.tdiv (now - lt) 60))) ≤ 5 ∨
              _clamp (p.litter_dirt + tick_amount 4 (max 0 (Int.tdiv (now - lt) 60))) ≥ 90
          · by_cases hs : p.sick = true
            · left
              show (if _clamp (p.hunger + tick_amount 5 (max 0 (Int.tdiv (now - lt) 60))) ≥ 90 ∨
                  _clamp (p.energy - tick_amount 5 (max 0 (Int.tdiv (now - lt) 60))) ≤ 5 ∨
                  _clamp (p.litter_dirt + tick_amount 4 (max 0 (Int.tdiv (now - lt) 60))) ≥ 90
                  then true else p.sick) = p.sick
              rw [if_pos hcond, hs]
            · have hs' : p.sick = false := by simpa using hs
              right; left
              refine ⟨hs', ?_, Or.inr rfl, ?_⟩
              · show (if _clamp (p.hunger + tick_amount 5 (max 0 (Int.tdiv (now - lt) 60))) ≥ 90 ∨
                    _clamp (p.energy - tick_amount 5 (max 0 (Int.tdiv (now - lt) 60))) ≤ 5 ∨
                    _clamp (p.litter_dirt + tick_amount 4 (max 0 (Int.tdiv (now - lt) 60))) ≥ 90
                    then true else p.sick) = true
                rw [if_pos hcond]
              · exact hcond
          · left
            show (if _clamp (p.hunger + tick_amount 5 (max 0 (Int.tdiv (now - lt) 60))) ≥ 90 ∨
                _clamp (p.energy - tick_amount 5 (max 0 (Int.tdiv (now - lt) 60))) ≤ 5 ∨
                _clamp (p.litter_dirt + tick_amount 4 (max 0 (Int.tdiv (now - lt) 60))) ≥ 90
                then true else p.sick) = p.sick
            rw [if_neg hcond]
        · left
          rfl

end Tomodachi
